import Mathlib

/-!
# Verification of the limitd-redis token-bucket rate limiter

A shallow embedding of the core of `limitd-redis` (a distributed token-bucket
rate limiter backed by Redis) together with proofs about the claims of its
natural-language specification.

Conventions of the embedding:
* All JavaScript / Lua numbers are modelled as rationals (`ℚ`); token contents
  are genuinely fractional during refill, so this is the faithful carrier.
* A JavaScript field that may be absent (`undefined`) is an `Option`.
* The Redis scripts are pure functions of their arguments, the stored hash
  `(d, r)` (absent on first touch), the existence of the ERL activation key,
  and the Redis clock; their writes are returned explicitly.
* Redis converts a Lua number in a script reply to an integer by dropping the
  decimal part (truncation toward zero); `truncInt` models this.
-/

namespace LimitdRedis

/-! ## JavaScript values (for the `count` argument validation, db.js `_determineCount`) -/

/-- A JavaScript value, as far as `_determineCount` can distinguish them:
numbers (`num`/`nan`), strings, booleans, big-integers, records (any object),
`null` and `undefined` (the latter standing for an absent argument). -/
inductive JSValue where
  | undef
  | jsNull
  | bool (b : Bool)
  | num (q : ℚ)
  | nan
  | str (s : String)
  | bigint (n : ℤ)
  | record
deriving DecidableEq

/-- JavaScript truthiness of a `JSValue`. -/
def JSValue.truthy : JSValue → Bool
  | .undef => false
  | .jsNull => false
  | .bool b => b
  | .num q => q != 0
  | .nan => false
  | .str s => s != ""
  | .bigint n => n != 0
  | .record => true

/-- `Number.isInteger`: true only for values of number type whose mathematical
value is an integer (`NaN`, big-integers, booleans, strings all give false). -/
def JSValue.isIntegerNum : JSValue → Bool
  | .num q => q.den == 1
  | _ => false

/-- The numeric value of an integer `JSValue.num` (meaningful only when
`isIntegerNum` holds). -/
def JSValue.numVal : JSValue → ℚ
  | .num q => q
  | _ => 0

/-! ## Temporal normalizer (`utils.js`, `normalizeTemporals`) -/

/-- The flat fields of a raw (user-supplied) bucket definition.  Absent fields
are `none`. -/
structure RawFields where
  per_interval : Option ℚ
  interval : Option ℚ
  size : Option ℚ
  unlimited : Option Bool
  skip_n_calls : Option ℚ
  erl_activation_period_seconds : Option ℚ
  per_second : Option ℚ
  per_minute : Option ℚ
  per_hour : Option ℚ
  per_day : Option ℚ

/-- A raw bucket definition; `elevated_limits` recursively holds another one. -/
inductive RawConfig where
  | mk (flat : RawFields) (elevated_limits : Option RawConfig)

def RawConfig.flat : RawConfig → RawFields
  | .mk f _ => f

def RawConfig.elevated_limits : RawConfig → Option RawConfig
  | .mk _ e => e

/-- A raw definition with every field absent (the empty object `{}`). -/
def emptyRawFields : RawFields :=
  { per_interval := none, interval := none, size := none, unlimited := none,
    skip_n_calls := none, erl_activation_period_seconds := none,
    per_second := none, per_minute := none, per_hour := none, per_day := none }

/-- The flat fields of a normalized bucket descriptor as produced by
`normalizeTemporals`.  `activation_period_minutes` is listed because `db.js`
reads it off the descriptor; `normalizeTemporals` never produces it (it is not
in the `_.pick` list and nothing else assigns it), so it is always `none`. -/
structure TemporalFields where
  per_interval : Option ℚ
  interval : Option ℚ
  size : Option ℚ
  unlimited : Option Bool
  skip_n_calls : Option ℚ
  erl_activation_period_seconds : Option ℚ
  ttl : Option ℚ
  ms_per_interval : Option ℚ
  drip_interval : Option ℚ
  activation_period_minutes : Option ℚ

/-- A normalized bucket descriptor; `elevated_limits` recursively holds the
normalized elevated sub-descriptor when present. -/
inductive NormalizedConfig where
  | mk (flat : TemporalFields) (elevated_limits : Option NormalizedConfig)

def NormalizedConfig.flat : NormalizedConfig → TemporalFields
  | .mk f _ => f

def NormalizedConfig.elevated_limits : NormalizedConfig → Option NormalizedConfig
  | .mk _ e => e

def NormalizedConfig.size (c : NormalizedConfig) : Option ℚ := c.flat.size

def NormalizedConfig.per_interval (c : NormalizedConfig) : Option ℚ := c.flat.per_interval

/-- `x || d` on an optionally-present JavaScript number: absent and `0` are
falsy and fall through to the default. -/
def jsOrQ (v : Option ℚ) (d : ℚ) : ℚ :=
  match v with
  | some x => if x = 0 then d else x
  | none => d

/-- One step of the `INTERVAL_SHORTCUTS.forEach` loop: if the shortcut is
truthy in the input (present and nonzero; `if (!params[shortcut]) return;`),
overwrite `(interval, per_interval)` with `(msValue, shortcut value)`. -/
def applyShortcut (cur : Option ℚ × Option ℚ) (v : Option ℚ) (msVal : ℚ) :
    Option ℚ × Option ℚ :=
  match v with
  | some x => if x = 0 then cur else (some msVal, some x)
  | none => cur

/-- `ERL_DEFAULT_ACTIVATION_PERIOD_SECONDS = 15 * 60` (utils.js). -/
def ERL_DEFAULT_ACTIVATION_PERIOD_SECONDS : ℚ := 15 * 60

/-- `normalizeTemporals` (utils.js lines 15–49).  Copies the recognized
fields, folds the interval shortcuts in their fixed order (`per_second`,
`per_minute`, `per_hour`, `per_day`; the last truthy one wins), defaults
`size` to `per_interval` when unset, derives `ttl`, `ms_per_interval` and
`drip_interval` when `per_interval` is truthy, recursively normalizes
`elevated_limits`, and defaults `erl_activation_period_seconds` to 900 when
falsy.  When `per_interval` is truthy but `interval` is absent the JavaScript
derived fields are `NaN`; that configuration is modelled as `none` (no claim
reaches it).

The statement `if (typeof type.size === 'undefined') type.size = type.per_interval;`
is `defaultSize`; the derivation of `(ttl, ms_per_interval, drip_interval)`
under `if (type.per_interval)` is `deriveTemporals` (when `interval` is absent
the JavaScript values are `NaN`, modelled as `none`); the defaulting
`if (!type.erl_activation_period_seconds)` (absent or zero replaced by 900) is
`defaultErlPeriod`. -/
def defaultSize (size per_interval : Option ℚ) : Option ℚ :=
  match size with
  | none => per_interval
  | some s => some s

def deriveTemporals (per_interval interval size : Option ℚ) :
    Option ℚ × Option ℚ × Option ℚ :=
  match per_interval, interval, size with
  | some p, some i, some s =>
    if p = 0 then (none, none, none)
    else (some (s * i / p / 1000), some (p / i), some (i / p))
  | _, _, _ => (none, none, none)

def defaultErlPeriod (v : Option ℚ) : Option ℚ :=
  match v with
  | none => some ERL_DEFAULT_ACTIVATION_PERIOD_SECONDS
  | some x => if x = 0 then some ERL_DEFAULT_ACTIVATION_PERIOD_SECONDS else some x

def normalizeTemporals : RawConfig → NormalizedConfig
  | .mk f elev =>
    let s0 : Option ℚ × Option ℚ := (f.interval, f.per_interval)
    let s1 := applyShortcut s0 f.per_second 1000
    let s2 := applyShortcut s1 f.per_minute 60000
    let s3 := applyShortcut s2 f.per_hour 3600000
    let s4 := applyShortcut s3 f.per_day 86400000
    let interval := s4.1
    let per_interval := s4.2
    let size : Option ℚ := defaultSize f.size per_interval
    let derived : Option ℚ × Option ℚ × Option ℚ := deriveTemporals per_interval interval size
    let elevated : Option NormalizedConfig := match elev with
      | some e => some (normalizeTemporals e)
      | none => none
    let erl : Option ℚ := defaultErlPeriod f.erl_activation_period_seconds
    .mk
      { per_interval := per_interval
        interval := interval
        size := size
        unlimited := f.unlimited
        skip_n_calls := f.skip_n_calls
        erl_activation_period_seconds := erl
        ttl := derived.1
        ms_per_interval := derived.2.1
        drip_interval := derived.2.2
        activation_period_minutes := none }
      elevated

/-! ## The atomic Redis routines

The stored bucket state is the hash `(d, r)`: last-drip timestamp in
milliseconds and remaining tokens.  `none` models a key that does not exist
yet.  Each routine returns its reply together with the new stored state and
(for the elevated routine) the effect applied to the ERL activation key. -/

/-- `calculateNewBucketContent` (take_elevated.lua lines 27–42).  The Lua
guard is `current[1] and tokens_per_ms`; since `tokens_per_ms` always comes
from `tonumber(ARGV[...])` it is a number, and `0` is truthy in Lua, so the
first branch fires whenever the hash exists and the `elseif` fixed-bucket
branch is unreachable; with `tokens_per_ms = 0` the drip amount is `0` and the
content is clamped at `bucket_size`. -/
def calculateNewBucketContent (current : Option (ℚ × ℚ)) (tokens_per_ms bucket_size current_timestamp_ms : ℚ) : ℚ :=
  match current with
  | some dr => min (dr.2 + max (current_timestamp_ms - dr.1) 0 * tokens_per_ms) bucket_size
  | none => bucket_size

/-- The positional arguments of `take_elevated.lua` (ARGV 1–8). -/
structure ElevArgs where
  tokens_per_ms : ℚ
  bucket_size : ℚ
  tokens_to_take : ℚ
  ttl : ℚ
  drip_interval : ℚ
  erl_tokens_per_ms : ℚ
  erl_bucket_size : ℚ
  erl_activation_period_seconds : ℚ

/-- The write performed on the ERL activation key by one invocation of the
elevated routine: either nothing, or `SET key v` followed by
`EXPIRE key ttlSeconds` (the only command sequence the script contains). -/
inductive ErlKeyEffect where
  | noop
  | setex (v : String) (ttlSeconds : ℚ)
deriving DecidableEq

/-- The observable outcome of one invocation of `take_elevated.lua`: the five
reply values, the new `(d, r)` hash written to the bucket key, and the effect
on the ERL activation key. -/
structure ElevOutcome where
  remaining : ℚ
  enough_tokens : Bool
  current_timestamp_ms : ℚ
  reset_ms : ℚ
  is_erl_activated : Bool
  newState : ℚ × ℚ
  keyTTL : ℚ
  erlKeyEffect : ErlKeyEffect

/-- `take_elevated.lua` (the adopted script, src/lib).  Inputs: the arguments,
whether the ERL activation key exists (`EXISTS erlKey`), the stored hash and
the Redis clock.  Mirrors the script line by line: refill under the regime
selected by `is_erl_activated`; if the tokens suffice deduct under that
regime; otherwise, when ERL is inactive, carry the used tokens
(`bucket_size − refill`) into the elevated capacity and activate ERL when that
admits the take. -/
def takeElevatedScript (a : ElevArgs) (erlKeyExists : Bool) (current : Option (ℚ × ℚ)) (now : ℚ) : ElevOutcome :=
  let bucket_content_after_refill :=
    if erlKeyExists then
      calculateNewBucketContent current a.erl_tokens_per_ms a.erl_bucket_size now
    else
      calculateNewBucketContent current a.tokens_per_ms a.bucket_size now
  let step : ℚ × Bool × Bool × ErlKeyEffect :=
    if a.tokens_to_take ≤ bucket_content_after_refill then
      if erlKeyExists then
        (min (bucket_content_after_refill - a.tokens_to_take) a.erl_bucket_size,
          true, true, .noop)
      else
        (min (bucket_content_after_refill - a.tokens_to_take) a.bucket_size,
          true, false, .noop)
    else
      if erlKeyExists then
        (bucket_content_after_refill, false, true, .noop)
      else
        let used_tokens := a.bucket_size - bucket_content_after_refill
        let bucket_content_after_erl_activation := a.erl_bucket_size - used_tokens
        if a.tokens_to_take ≤ bucket_content_after_erl_activation then
          (min (bucket_content_after_erl_activation - a.tokens_to_take) a.erl_bucket_size,
            true, true, .setex "1" a.erl_activation_period_seconds)
        else
          (bucket_content_after_refill, false, false, .noop)
  let bucket_content_after_take := step.1
  let enough_tokens := step.2.1
  let is_erl_activated := step.2.2.1
  let reset_ms :=
    if 0 < a.drip_interval then
      if is_erl_activated then
        ((⌈now + (a.erl_bucket_size - bucket_content_after_take) * a.drip_interval⌉ : ℤ) : ℚ)
      else
        ((⌈now + (a.bucket_size - bucket_content_after_take) * a.drip_interval⌉ : ℤ) : ℚ)
    else 0
  { remaining := bucket_content_after_take
    enough_tokens := enough_tokens
    current_timestamp_ms := now
    reset_ms := reset_ms
    is_erl_activated := is_erl_activated
    newState := (now, bucket_content_after_take)
    keyTTL := a.ttl
    erlKeyEffect := step.2.2.2 }

/-- The earlier version of the elevated script (src/unnamed/part_001), whose
eighth argument is an activation period in minutes.  On the first activation
it refills to `erl_bucket_size − bucket_size` regardless of the refilled
standard content, and activation happens whenever the standard content does
not admit the take (even if the elevated content does not either); `reset_ms`
always uses `bucket_size`. -/
def takeElevatedOldScript (a : ElevArgs) (erlKeyExists : Bool) (current : Option (ℚ × ℚ)) (now : ℚ) : ElevOutcome :=
  let content0 := calculateNewBucketContent current a.tokens_per_ms a.bucket_size now
  let step : ℚ × Bool × Bool × ErlKeyEffect :=
    if a.tokens_to_take ≤ content0 ∧ erlKeyExists = false then
      (min (content0 - a.tokens_to_take) a.bucket_size, true, false, .noop)
    else
      let refillElev := calculateNewBucketContent current a.erl_tokens_per_ms a.erl_bucket_size now
      let activation : ℚ × ErlKeyEffect :=
        if erlKeyExists then (refillElev, .noop)
        else (a.erl_bucket_size - a.bucket_size,
          .setex "1" (a.erl_activation_period_seconds * 60))
      let newContent := activation.1
      if a.tokens_to_take ≤ newContent then
        (min (newContent - a.tokens_to_take) a.erl_bucket_size, true, true, activation.2)
      else
        (newContent, false, true, activation.2)
  let new_content := step.1
  let reset_ms :=
    if 0 < a.drip_interval then
      ((⌈now + (a.bucket_size - new_content) * a.drip_interval⌉ : ℤ) : ℚ)
    else 0
  { remaining := new_content
    enough_tokens := step.2.1
    current_timestamp_ms := now
    reset_ms := reset_ms
    is_erl_activated := step.2.2.1
    newState := (now, new_content)
    keyTTL := a.ttl
    erlKeyEffect := step.2.2.2 }

/-- The reply of the standard take routine: remaining, conformance, the Redis
clock and the projected reset time. -/
structure TakeScriptOutcome where
  remaining : ℚ
  conformant : Bool
  current_timestamp_ms : ℚ
  reset_ms : ℚ
  newState : ℚ × ℚ
  keyTTL : ℚ

/-- Modelled from the spec: `take.lua` itself is not under src/ (db.js only
loads it), so this follows §4.5 of the specification word for word: refill
(`min(r + max(now − d, 0) · tokens_per_ms, size)` when dripping, `r` for a
fixed bucket, `size` on first touch), conform when the content covers the
count, deduct with a clamp at `size`, write `(now, new_r)`, and report
`reset_ms = ceil(now + (size − new_r) · drip_interval)` when
`drip_interval > 0`, else `0`. -/
def takeRefillContent (tokens_per_ms size : ℚ) (current : Option (ℚ × ℚ)) (now : ℚ) : ℚ :=
  match current with
  | some dr =>
    if 0 < tokens_per_ms then
      min (dr.2 + max (now - dr.1) 0 * tokens_per_ms) size
    else if tokens_per_ms = 0 then
      dr.2
    else size
  | none => size

def takeScript (tokens_per_ms size count ttl drip_interval : ℚ) (current : Option (ℚ × ℚ)) (now : ℚ) : TakeScriptOutcome :=
  let content := takeRefillContent tokens_per_ms size current now
  let conformant := count ≤ content
  let new_r := if conformant then min (content - count) size else content
  let reset_ms :=
    if 0 < drip_interval then ((⌈now + (size - new_r) * drip_interval⌉ : ℤ) : ℚ)
    else 0
  { remaining := new_r
    conformant := if conformant then true else false
    current_timestamp_ms := now
    reset_ms := reset_ms
    newState := (now, new_r)
    keyTTL := ttl }

/-- The reply of the put routine. -/
structure PutScriptOutcome where
  remaining : ℚ
  current_timestamp_ms : ℚ
  reset_ms : ℚ
  newState : ℚ × ℚ
  keyTTL : ℚ

/-- Modelled from the spec: `put.lua` itself is not under src/ (db.js only
loads it), so this follows §4.7 of the specification word for word: read
`(d, r)` treating a missing entry as `r = size`, set
`new_r = min(r + count, size)` (negative counts permitted and may yield
`new_r < 0`), write back, and compute `reset_ms` as in the standard take. -/
def putScript (count size ttl drip_interval : ℚ) (current : Option (ℚ × ℚ)) (now : ℚ) : PutScriptOutcome :=
  let r := match current with
    | some dr => dr.2
    | none => size
  let new_r := min (r + count) size
  let reset_ms :=
    if 0 < drip_interval then ((⌈now + (size - new_r) * drip_interval⌉ : ℤ) : ℚ)
    else 0
  { remaining := new_r
    current_timestamp_ms := now
    reset_ms := reset_ms
    newState := (now, new_r)
    keyTTL := ttl }

/-! ## Client dispatch (`db.js`) -/

/-- Redis converts a Lua number in a reply to an integer by dropping the
decimal part (truncation toward zero); `parseInt` then reads that integer
unchanged. -/
def truncInt (q : ℚ) : ℤ :=
  if q < 0 then -(⌊-q⌋) else ⌊q⌋

/-- The result `take` delivers to its callback on the elevated path
(db.js lines 268–285): `limit` is `bucketKeyConfig.size`, the *standard* size
of the resolved descriptor. -/
structure ElevTakeResult where
  conformant : Bool
  remaining : ℤ
  reset : ℤ
  limit : Option ℚ
  delayed : Bool
  erl_activated : Bool
deriving DecidableEq

/-- Decoding of the five reply values of `take_elevated.lua` into the callback
result (db.js lines 268–280). -/
def decodeElevated (cfg : NormalizedConfig) (o : ElevOutcome) : ElevTakeResult :=
  { conformant := o.enough_tokens
    remaining := truncInt o.remaining
    reset := ⌈((truncInt o.reset_ms : ℚ) / 1000 : ℚ)⌉
    limit := cfg.size
    delayed := false
    erl_activated := o.is_erl_activated }

/-- The arguments `take` passes to the `takeElevated` command (db.js lines
255–263).  `size` fields are required of any bucket that reaches this
dispatch, hence read with `getD 0`.  The eighth argument is
`elevated_limits.activation_period_minutes || 15`; `normalizeTemporals` never
sets `activation_period_minutes`, so the value is the fallback `15` whenever
the descriptor came from the normalizer. -/
def dispatchElevatedArgs (cfg : NormalizedConfig) (elevCfg : NormalizedConfig) (count globalTTL : ℚ) : ElevArgs :=
  { tokens_per_ms := jsOrQ cfg.flat.ms_per_interval 0
    bucket_size := cfg.size.getD 0
    tokens_to_take := count
    ttl := ((⌈jsOrQ cfg.flat.ttl globalTTL⌉ : ℤ) : ℚ)
    drip_interval := jsOrQ cfg.flat.drip_interval 0
    erl_tokens_per_ms := jsOrQ elevCfg.flat.ms_per_interval 0
    erl_bucket_size := elevCfg.size.getD 0
    erl_activation_period_seconds := jsOrQ elevCfg.flat.activation_period_minutes 15 }

/-- The outcome of `_determineCount` (db.js lines 455–469): the resolved count
or the thrown error. -/
inductive CountOutcome where
  | ok (count : ℚ)
  | countError
deriving DecidableEq

/-- `_determineCount` (db.js lines 455–469), checked in source order:
`paramsCount === 'all'` resolves to the bucket size; a true integer resolves
to itself; any *falsy* value (absent, `null`, `false`, `NaN`, `''`, `0n`)
resolves to the default; everything else throws. -/
def determineCount (paramsCount : JSValue) (defaultCount bucketKeyConfigSize : ℚ) : CountOutcome :=
  if paramsCount = .str "all" then .ok bucketKeyConfigSize
  else if paramsCount.isIntegerNum then .ok paramsCount.numVal
  else if paramsCount.truthy = false then .ok defaultCount
  else .countError

/-- How an invocation of `take` terminates before reaching Redis, as far as
error delivery is concerned (db.js lines 199–215): a validation failure is
delivered through the callback (`process.nextTick(callback, valError)`); the
throw of `_determineCount` happens synchronously, before any callback could be
scheduled; otherwise the call proceeds with the resolved count. -/
inductive TakeControl where
  | callbackError
  | syncThrow
  | proceeds (count : ℚ)
deriving DecidableEq

/-- The control flow of `take` up to the point where the resolved count is
known (db.js lines 199–215): `validateParams` first (failure → callback),
then `_determineCount` (failure → synchronous throw). -/
def take_controlFlow (valError : Bool) (paramsCount : JSValue) (defaultCount bucketKeyConfigSize : ℚ) : TakeControl :=
  if valError then .callbackError
  else
    match determineCount paramsCount defaultCount bucketKeyConfigSize with
    | .countError => .syncThrow
    | .ok c => .proceeds c

/-! ### The skip-call cache (db.js lines 56, 227–249, 287–312)

`callCounts` is a bounded LRU from `type:key` to the last delivered result and
the number of calls elided since it was stored.  Modelled as an association
list with most-recently-written entry first and the `max: 50` bound applied on
write; `lru-cache` additionally refreshes recency on `get`, which only affects
which entry is evicted at capacity and is not modelled. -/

def alistGet (l : List (String × α)) (k : String) : Option α :=
  match l.find? (fun p => p.1 = k) with
  | some p => some p.2
  | none => none

def alistSet (l : List (String × α)) (k : String) (v : α) : List (String × α) :=
  ((k, v) :: l.filter (fun p => p.1 ≠ k)).take 50

/-- The result `take` delivers to its callback on the standard path (db.js
lines 297–307). -/
structure StdTakeResult where
  conformant : Bool
  remaining : ℚ
  reset : ℤ
  limit : Option ℚ
  delayed : Bool
deriving DecidableEq

/-- An entry of the `callCounts` cache: the last result delivered for the key
and the number of skipped calls since. -/
structure CallCountEntry where
  res : StdTakeResult
  count : ℕ
deriving DecidableEq

/-- Decoding of the standard `take.lua` reply (db.js lines 297–307). -/
def decodeStd (cfg : NormalizedConfig) (o : TakeScriptOutcome) : StdTakeResult :=
  { conformant := o.conformant
    remaining := ((truncInt o.remaining : ℤ) : ℚ)
    reset := ⌈((truncInt o.reset_ms : ℚ) / 1000 : ℚ)⌉
    limit := cfg.size
    delayed := false }

/-- One invocation of `take` on the standard (non-elevated) path for a bucket
whose descriptor is `cfg`, against the store entry for `key` (db.js lines
217–249 and 287–312).  Inputs: the `callCounts` cache, the stored hash and
the Redis clock; `count` is the already-resolved count.  Outputs: the result
delivered to the callback, the new cache, the new stored hash, and the count
actually sent to Redis (`none` when the call was answered from the cache). -/
def takeStd (cfg : NormalizedConfig) (key : String) (count : ℚ)
    (callCounts : List (String × CallCountEntry)) (current : Option (ℚ × ℚ)) (now : ℚ) :
    StdTakeResult × List (String × CallCountEntry) × Option (ℚ × ℚ) × Option ℚ :=
  if cfg.flat.unlimited.getD false then
    ({ conformant := true, remaining := cfg.size.getD 0,
       reset := ⌈(now / 1000 : ℚ)⌉, limit := cfg.size, delayed := false },
      callCounts, current, none)
  else
    let skip := jsOrQ cfg.flat.skip_n_calls 0
    match (if 0 < skip then alistGet callCounts key else none) with
    | some prevCall =>
      if (prevCall.count : ℚ) < skip then
        (prevCall.res,
          alistSet callCounts key { prevCall with count := prevCall.count + 1 },
          current, none)
      else
        let count' := count * (skip + 1)
        let o := takeScript (jsOrQ cfg.flat.ms_per_interval 0) (cfg.size.getD 0) count'
          ((⌈jsOrQ cfg.flat.ttl 604800⌉ : ℤ) : ℚ) (jsOrQ cfg.flat.drip_interval 0) current now
        let res := decodeStd cfg o
        (res, alistSet callCounts key { res := res, count := 0 }, some o.newState, some count')
    | none =>
      let o := takeScript (jsOrQ cfg.flat.ms_per_interval 0) (cfg.size.getD 0) count
        ((⌈jsOrQ cfg.flat.ttl 604800⌉ : ℤ) : ℚ) (jsOrQ cfg.flat.drip_interval 0) current now
      let res := decodeStd cfg o
      let cc := if 0 < skip then alistSet callCounts key { res := res, count := 0 } else callCounts
      (res, cc, some o.newState, some count)

/-! ### The key resolver (`bucketKeyConfig`, db.js lines 155–179) -/

/-- A compiled regex override: the normalized descriptor together with the
compiled case-insensitive pattern, modelled as an abstract predicate on the
key (`o.match.exec(key)` is truthy exactly when the predicate holds). -/
structure RegexOverride where
  cfg : NormalizedConfig
  pattern : String → Bool

/-- A compiled bucket type: its own base descriptor, the literal overrides
keyed by exact key, the regex overrides in definition order, and the bounded
regex-match cache.  `normalizeType` allocates the cache only when at least one
regex override exists; the empty list stands for an absent or empty cache,
which agrees with the code on every input on which the code does not crash. -/
structure TypeDescriptor where
  base : NormalizedConfig
  overrides : List (String × NormalizedConfig)
  overridesMatch : List RegexOverride
  overridesCache : List (String × RegexOverride)

/-- `bucketKeyConfig` (db.js lines 155–179): a caller-supplied
`configOverride` is normalized and returned (no caching); otherwise the
literal override for the exact key; otherwise the cached regex override;
otherwise the first matching regex override in definition order, which is
inserted into the cache; otherwise the type itself.  Returns the effective
descriptor and the type with its (possibly updated) cache. -/
def bucketKeyConfig (T : TypeDescriptor) (key : String) (configOverride : Option RawConfig) :
    NormalizedConfig × TypeDescriptor :=
  match configOverride with
  | some o => (normalizeTemporals o, T)
  | none =>
    match alistGet T.overrides key with
    | some fromOverride => (fromOverride, T)
    | none =>
      match alistGet T.overridesCache key with
      | some fromCache => (fromCache.cfg, T)
      | none =>
        match T.overridesMatch.find? (fun o => o.pattern key) with
        | some fromMatch =>
          (fromMatch.cfg, { T with overridesCache := alistSet T.overridesCache key fromMatch })
        | none => (T.base, T)

/-! ## Concrete scenario: the ERL promotion bucket of spec §8 scenario 5 -/

/-- The raw bucket `{size: 1, per_minute: 1, elevated_limits: {size: 10, per_minute: 2}}`. -/
def erlScenarioRaw : RawConfig :=
  .mk { emptyRawFields with size := some 1, per_minute := some 1 }
    (some (.mk { emptyRawFields with size := some 10, per_minute := some 2 } none))

def erlScenarioCfg : NormalizedConfig := normalizeTemporals erlScenarioRaw

/-- The normalized elevated sub-descriptor of the scenario bucket. -/
def erlScenarioElevCfg : NormalizedConfig :=
  normalizeTemporals (.mk { emptyRawFields with size := some 10, per_minute := some 2 } none)

/-- The arguments `take` sends to `take_elevated.lua` for the scenario bucket
with `count = 1` and the default `globalTTL` of 604 800 s. -/
def erlScenarioArgs : ElevArgs :=
  dispatchElevatedArgs erlScenarioCfg erlScenarioElevCfg 1 604800

/-- The normalizer indeed hangs `erlScenarioElevCfg` under `elevated_limits`
of the scenario bucket. -/
theorem erlScenarioCfg_elevated :
    erlScenarioCfg.elevated_limits = some erlScenarioElevCfg := rfl

/-- Refilled content never exceeds the refill capacity. -/
theorem calculateNewBucketContent_le (current : Option (ℚ × ℚ)) (tpm size now : ℚ) :
    calculateNewBucketContent current tpm size now ≤ size := by
  cases current with
  | some dr => exact min_le_right _ _
  | none => exact le_refl _

/-- The activation branch of the adopted elevated script: when the ERL key is
absent, the refilled standard content is short of the count, and the elevated
capacity minus the used tokens covers it, the script conforms, activates, and
leaves `erl_size − used − count`. -/
theorem takeElevatedScript_activation (a : ElevArgs) (current : Option (ℚ × ℚ)) (now : ℚ)
    (h0 : 0 ≤ a.tokens_to_take)
    (hlt : calculateNewBucketContent current a.tokens_per_ms a.bucket_size now < a.tokens_to_take)
    (hge : a.tokens_to_take ≤ a.erl_bucket_size -
      (a.bucket_size - calculateNewBucketContent current a.tokens_per_ms a.bucket_size now)) :
    (takeElevatedScript a false current now).enough_tokens = true ∧
    (takeElevatedScript a false current now).is_erl_activated = true ∧
    (takeElevatedScript a false current now).remaining =
      a.erl_bucket_size -
        (a.bucket_size - calculateNewBucketContent current a.tokens_per_ms a.bucket_size now) -
        a.tokens_to_take := by
  have hcle : calculateNewBucketContent current a.tokens_per_ms a.bucket_size now ≤ a.bucket_size :=
    calculateNewBucketContent_le current a.tokens_per_ms a.bucket_size now
  simp only [takeElevatedScript, Bool.false_eq_true, if_false, if_neg (not_le.mpr hlt),
    if_pos hge]
  refine ⟨trivial, trivial, ?_⟩
  have hside : a.erl_bucket_size -
      (a.bucket_size - calculateNewBucketContent current a.tokens_per_ms a.bucket_size now) -
      a.tokens_to_take ≤ a.erl_bucket_size := by linarith
  rw [min_eq_left hside]

/-- C1.  When the ERL key is absent, the refilled standard content is below
the requested count, and the elevated capacity minus the used tokens covers
the count, the elevated routine activates ERL and conforms with remaining
`erl_size − used − count`; concretely, on the bucket
`{size:1, per_minute:1, elevated:{size:10, per_minute:2}}` the second take
(immediately after the first) is decoded as
`conformant: true, erl_activated: true, remaining: 8`. -/
theorem elevated_take_activation_carry_forward :
    (∀ (a : ElevArgs) (current : Option (ℚ × ℚ)) (now : ℚ),
      0 ≤ a.tokens_to_take →
      calculateNewBucketContent current a.tokens_per_ms a.bucket_size now < a.tokens_to_take →
      a.tokens_to_take ≤ a.erl_bucket_size -
        (a.bucket_size - calculateNewBucketContent current a.tokens_per_ms a.bucket_size now) →
      (takeElevatedScript a false current now).enough_tokens = true ∧
      (takeElevatedScript a false current now).is_erl_activated = true ∧
      (takeElevatedScript a false current now).remaining =
        a.erl_bucket_size -
          (a.bucket_size - calculateNewBucketContent current a.tokens_per_ms a.bucket_size now) -
          a.tokens_to_take) ∧
    (∀ now : ℚ,
      (takeElevatedScript erlScenarioArgs false none now).newState = (now, 0) ∧
      (decodeElevated erlScenarioCfg
          (takeElevatedScript erlScenarioArgs false (some (now, 0)) now)).conformant = true ∧
      (decodeElevated erlScenarioCfg
          (takeElevatedScript erlScenarioArgs false (some (now, 0)) now)).erl_activated = true ∧
      (decodeElevated erlScenarioCfg
          (takeElevatedScript erlScenarioArgs false (some (now, 0)) now)).remaining = 8) := by
  constructor
  · exact fun a current now h0 hlt hge =>
      takeElevatedScript_activation a current now h0 hlt hge
  · intro now
    refine ⟨?_, ?_, ?_, ?_⟩ <;>
      norm_num [takeElevatedScript, calculateNewBucketContent, decodeElevated, truncInt,
        erlScenarioArgs, erlScenarioCfg, erlScenarioElevCfg, erlScenarioRaw, emptyRawFields,
        dispatchElevatedArgs, jsOrQ, normalizeTemporals, applyShortcut, defaultSize, deriveTemporals, defaultErlPeriod, NormalizedConfig.flat,
        NormalizedConfig.size]

/-- Witness for C1: the general activation statement at the concrete second
take of the scenario. -/
theorem elevated_take_activation_carry_forward_witness :
    (takeElevatedScript erlScenarioArgs false (some (0, 0)) 0).enough_tokens = true ∧
    (takeElevatedScript erlScenarioArgs false (some (0, 0)) 0).is_erl_activated = true ∧
    (takeElevatedScript erlScenarioArgs false (some (0, 0)) 0).remaining =
      erlScenarioArgs.erl_bucket_size -
        (erlScenarioArgs.bucket_size -
          calculateNewBucketContent (some (0, 0)) erlScenarioArgs.tokens_per_ms
            erlScenarioArgs.bucket_size 0) -
        erlScenarioArgs.tokens_to_take :=
  elevated_take_activation_carry_forward.1 erlScenarioArgs (some (0, 0)) 0
    (by norm_num [erlScenarioArgs, dispatchElevatedArgs, erlScenarioCfg, erlScenarioElevCfg,
      erlScenarioRaw, emptyRawFields, jsOrQ, normalizeTemporals, applyShortcut, defaultSize, deriveTemporals, defaultErlPeriod,
      NormalizedConfig.flat, NormalizedConfig.size])
    (by norm_num [erlScenarioArgs, dispatchElevatedArgs, erlScenarioCfg, erlScenarioElevCfg,
      erlScenarioRaw, emptyRawFields, jsOrQ, normalizeTemporals, applyShortcut, defaultSize, deriveTemporals, defaultErlPeriod,
      NormalizedConfig.flat, NormalizedConfig.size, calculateNewBucketContent])
    (by norm_num [erlScenarioArgs, dispatchElevatedArgs, erlScenarioCfg, erlScenarioElevCfg,
      erlScenarioRaw, emptyRawFields, jsOrQ, normalizeTemporals, applyShortcut, defaultSize, deriveTemporals, defaultErlPeriod,
      NormalizedConfig.flat, NormalizedConfig.size, calculateNewBucketContent])

/-- C2.  The value written to the ERL activation key is `"1"`, but its TTL is
*not* the configured `erl_activation_period_seconds`: `take` passes
`elevated_limits.activation_period_minutes || 15` (db.js line 263), a field
the normalizer never produces, so the script always receives the fallback 15
and runs `EXPIRE erlKey 15` — 15 seconds, not the configured/default 900.
Concretely, the activating second take of the scenario bucket writes
`SET erlKey "1"; EXPIRE erlKey 15` although the normalized descriptor carries
`erl_activation_period_seconds = 900`. -/
theorem erl_activation_ttl_is_hardcoded_15 :
    (∀ raw : RawConfig, (normalizeTemporals raw).flat.activation_period_minutes = none) ∧
    (∀ (cfgRaw elevRaw : RawConfig) (count g : ℚ),
      (dispatchElevatedArgs (normalizeTemporals cfgRaw) (normalizeTemporals elevRaw)
        count g).erl_activation_period_seconds = 15) ∧
    (takeElevatedScript erlScenarioArgs false (some (0, 0)) 0).erlKeyEffect =
      ErlKeyEffect.setex "1" 15 ∧
    erlScenarioElevCfg.flat.erl_activation_period_seconds = some 900 ∧
    (15 : ℚ) ≠ 900 := by
  refine ⟨?_, ?_, ?_, ?_, by norm_num⟩
  · intro raw
    cases raw with
    | mk f e =>
      cases e <;> simp [normalizeTemporals, NormalizedConfig.flat]
  · intro cfgRaw elevRaw count g
    cases elevRaw with
    | mk f e =>
      cases e <;>
        simp [dispatchElevatedArgs, normalizeTemporals, NormalizedConfig.flat, jsOrQ]
  · norm_num [takeElevatedScript, calculateNewBucketContent, erlScenarioArgs, erlScenarioCfg,
      erlScenarioElevCfg, erlScenarioRaw, emptyRawFields, dispatchElevatedArgs, jsOrQ,
      normalizeTemporals, applyShortcut, defaultSize, deriveTemporals, defaultErlPeriod,
      NormalizedConfig.flat, NormalizedConfig.size]
  · norm_num [erlScenarioElevCfg, erlScenarioRaw, emptyRawFields, normalizeTemporals,
      applyShortcut, defaultSize, deriveTemporals, defaultErlPeriod, NormalizedConfig.flat,
      ERL_DEFAULT_ACTIVATION_PERIOD_SECONDS]

/-- C7.  The elevated routine never touches the ERL activation key while it
exists: with the key present the effect is `noop` (no `DEL`, no rewrite, no
`EXPIRE`), and any write at all happens only on the inactive-to-active
transition (key absent, activation reported), as `SET "1"` plus `EXPIRE`. -/
theorem erl_key_untouched_once_active :
    ∀ (a : ElevArgs) (current : Option (ℚ × ℚ)) (now : ℚ),
      ((takeElevatedScript a true current now).erlKeyEffect = ErlKeyEffect.noop) ∧
      (∀ erlOn : Bool,
        (takeElevatedScript a erlOn current now).erlKeyEffect ≠ ErlKeyEffect.noop →
        erlOn = false ∧
        (takeElevatedScript a erlOn current now).is_erl_activated = true ∧
        (takeElevatedScript a erlOn current now).erlKeyEffect =
          ErlKeyEffect.setex "1" a.erl_activation_period_seconds) := by
  intro a current now
  constructor
  · simp only [takeElevatedScript]
    split_ifs <;> rfl
  · intro erlOn h
    cases erlOn with
    | true =>
      exfalso
      apply h
      simp only [takeElevatedScript]
      split_ifs <;> rfl
    | false =>
      refine ⟨rfl, ?_, ?_⟩ <;>
      · revert h
        simp only [takeElevatedScript]
        split_ifs <;> simp

/-- C10.  The `limit` field of every decoded elevated-take result is the
standard `size` of the resolved descriptor, never the elevated size; in the
scenario's activating take the result has `erl_activated = true`,
`limit = some 1` and `remaining = 8`, so the remaining strictly exceeds the
limit while ERL is active. -/
theorem elevated_result_limit_is_standard_size :
    (∀ (cfg : NormalizedConfig) (o : ElevOutcome), (decodeElevated cfg o).limit = cfg.size) ∧
    (decodeElevated erlScenarioCfg
        (takeElevatedScript erlScenarioArgs false (some (0, 0)) 0)).erl_activated = true ∧
    (decodeElevated erlScenarioCfg
        (takeElevatedScript erlScenarioArgs false (some (0, 0)) 0)).limit = some 1 ∧
    (decodeElevated erlScenarioCfg
        (takeElevatedScript erlScenarioArgs false (some (0, 0)) 0)).remaining = 8 ∧
    (1 : ℚ) <
      ((decodeElevated erlScenarioCfg
        (takeElevatedScript erlScenarioArgs false (some (0, 0)) 0)).remaining : ℚ) := by
  refine ⟨fun cfg o => rfl, ?_, ?_, ?_, ?_⟩ <;>
    norm_num [takeElevatedScript, calculateNewBucketContent, decodeElevated, truncInt,
      erlScenarioArgs, erlScenarioCfg, erlScenarioElevCfg, erlScenarioRaw, emptyRawFields,
      dispatchElevatedArgs, jsOrQ, normalizeTemporals, applyShortcut, defaultSize, deriveTemporals, defaultErlPeriod, NormalizedConfig.flat,
      NormalizedConfig.size]

/-! ## Claim C3: bounds on the persisted remaining tokens -/

/-- The client-side count for `put` (db.js lines 364–370):
`Math.min(_determineCount({count, defaultCount: size, size}), size)`. -/
def putDispatchCount (paramsCount : JSValue) (size : ℚ) : CountOutcome :=
  match determineCount paramsCount size size with
  | .ok c => .ok (min c size)
  | .countError => .countError

/-- C3 (amended).  After a standard take, an elevated take, or a put with
nonnegative count, the persisted remaining `r` stays within
`0 ≤ r ≤ size-currently-in-effect` (the elevated size exactly when ERL is
active at the end of the mutation, the standard size otherwise; `put` always
bounds against the standard size), provided the pre-state satisfied the
bounds.  The original claim fails for `put` with a negative count, which the
client permits — see the counterexample. -/
theorem mutation_preserves_remaining_bounds :
    (∀ (tpm size count ttl drip : ℚ) (current : Option (ℚ × ℚ)) (now : ℚ),
      0 ≤ size → 0 ≤ tpm →
      (∀ d r, current = some (d, r) → 0 ≤ r ∧ r ≤ size) →
      0 ≤ (takeScript tpm size count ttl drip current now).remaining ∧
      (takeScript tpm size count ttl drip current now).remaining ≤ size) ∧
    (∀ (a : ElevArgs) (erlOn : Bool) (current : Option (ℚ × ℚ)) (now : ℚ),
      0 ≤ a.bucket_size → 0 ≤ a.erl_bucket_size →
      0 ≤ a.tokens_per_ms → 0 ≤ a.erl_tokens_per_ms →
      (∀ d r, current = some (d, r) → 0 ≤ r) →
      0 ≤ (takeElevatedScript a erlOn current now).remaining ∧
      (takeElevatedScript a erlOn current now).remaining ≤
        (if (takeElevatedScript a erlOn current now).is_erl_activated then a.erl_bucket_size
          else a.bucket_size)) ∧
    (∀ (count size ttl drip : ℚ) (current : Option (ℚ × ℚ)) (now : ℚ),
      0 ≤ count → 0 ≤ size →
      (∀ d r, current = some (d, r) → 0 ≤ r ∧ r ≤ size) →
      0 ≤ (putScript count size ttl drip current now).remaining ∧
      (putScript count size ttl drip current now).remaining ≤ size) := by
  refine ⟨?_, ?_, ?_⟩
  · intro tpm size count ttl drip current now hsize htpm hpre
    have hbounds : 0 ≤ takeRefillContent tpm size current now ∧
        takeRefillContent tpm size current now ≤ size := by
      cases current with
      | none => exact ⟨hsize, le_refl _⟩
      | some dr =>
        obtain ⟨hr0, hrs⟩ := hpre dr.1 dr.2 rfl
        have hmax : (0 : ℚ) ≤ max (now - dr.1) 0 := le_max_right _ _
        simp only [takeRefillContent]
        split_ifs with h1 h2
        · exact ⟨le_min (by nlinarith) hsize, min_le_right _ _⟩
        · exact ⟨hr0, hrs⟩
        · exact ⟨hsize, le_refl _⟩
    obtain ⟨hc0, hcs⟩ := hbounds
    simp only [takeScript]
    split_ifs with hc
    · exact ⟨le_min (by linarith) hsize, min_le_right _ _⟩
    · exact ⟨hc0, hcs⟩
  · intro a erlOn current now hbs hes htpm hetpm hpre
    have hcont : ∀ t s, 0 ≤ t → 0 ≤ s → 0 ≤ calculateNewBucketContent current t s now := by
      intro t s ht hs
      cases current with
      | none => exact hs
      | some dr =>
        have := hpre dr.1 dr.2 rfl
        exact le_min (by nlinarith [le_max_right (now - dr.1) (0 : ℚ)]) hs
    have hcle := calculateNewBucketContent_le current a.tokens_per_ms a.bucket_size now
    have hcleE := calculateNewBucketContent_le current a.erl_tokens_per_ms a.erl_bucket_size now
    have h0 := hcont a.tokens_per_ms a.bucket_size htpm hbs
    have h0E := hcont a.erl_tokens_per_ms a.erl_bucket_size hetpm hes
    cases erlOn with
    | true =>
      simp only [takeElevatedScript, if_true]
      split_ifs with h1 e1 e2
      · exact ⟨le_min (by linarith) hes, min_le_right _ _⟩
      · exact absurd rfl e1
      · exact ⟨h0E, hcleE⟩
      · exact absurd rfl e2
    | false =>
      simp only [takeElevatedScript, Bool.false_eq_true, if_false]
      split_ifs with h1 e1 h2 e2 e3
      · exact e1.elim
      · exact ⟨le_min (by linarith) hbs, min_le_right _ _⟩
      · exact ⟨le_min (by linarith) hes, min_le_right _ _⟩
      · exact absurd rfl e2
      · exact e3.elim
      · exact ⟨h0, hcle⟩
  · intro count size ttl drip current now hc hs hpre
    simp only [putScript]
    cases current with
    | none => exact ⟨le_min (by linarith) hs, min_le_right _ _⟩
    | some dr =>
      obtain ⟨hr0, _⟩ := hpre dr.1 dr.2 rfl
      exact ⟨le_min (by linarith) hs, min_le_right _ _⟩

/-- Counterexample to C3 as stated: on a fresh bucket of size 1, a put with
count −2 — which `_determineCount` accepts as a true integer and the
client-side `Math.min(count, size)` leaves at −2 — persists `r = −1 < 0`. -/
theorem put_negative_count_breaks_lower_bound :
    putDispatchCount (JSValue.num (-2)) 1 = CountOutcome.ok (-2) ∧
    (putScript (-2) 1 604800 0 none 0).remaining = -1 ∧
    ¬(0 ≤ (putScript (-2) 1 604800 0 none 0).remaining) := by
  refine ⟨?_, ?_, ?_⟩
  · simp [putDispatchCount, determineCount, JSValue.isIntegerNum, JSValue.numVal,
      JSValue.truthy]
    norm_num
  · norm_num [putScript]
  · norm_num [putScript]

/-- Witness for C3: the preservation statement at a concrete first-touch
standard take (`size 3`, `count 1`). -/
theorem mutation_preserves_remaining_bounds_witness :
    0 ≤ (takeScript 0 3 1 60 0 none 0).remaining ∧
    (takeScript 0 3 1 60 0 none 0).remaining ≤ 3 :=
  mutation_preserves_remaining_bounds.1 0 3 1 60 0 none 0 (by norm_num) (by norm_num)
    (by intro d r h; cases h)

/-- Witness for C7: a call with the ERL key present (the scenario bucket,
state `(0, 0)`) leaves the key untouched. -/
theorem erl_key_untouched_once_active_witness :
    (takeElevatedScript erlScenarioArgs true (some (0, 0)) 0).erlKeyEffect =
      ErlKeyEffect.noop ∧
    (takeElevatedScript erlScenarioArgs false (some (0, 0)) 0).is_erl_activated = true ∧
    (takeElevatedScript erlScenarioArgs false (some (0, 0)) 0).erlKeyEffect =
      ErlKeyEffect.setex "1" erlScenarioArgs.erl_activation_period_seconds :=
  ⟨(erl_key_untouched_once_active erlScenarioArgs (some (0, 0)) 0).1,
    ((erl_key_untouched_once_active erlScenarioArgs (some (0, 0)) 0).2 false
      (by
        have heff : (takeElevatedScript erlScenarioArgs false (some (0, 0)) 0).erlKeyEffect =
            ErlKeyEffect.setex "1" 15 := by
          norm_num [takeElevatedScript, calculateNewBucketContent, erlScenarioArgs,
            erlScenarioCfg, erlScenarioElevCfg, erlScenarioRaw, emptyRawFields,
            dispatchElevatedArgs, jsOrQ, normalizeTemporals, applyShortcut, defaultSize,
            deriveTemporals, defaultErlPeriod, NormalizedConfig.flat, NormalizedConfig.size]
        rw [heff]
        exact fun h => ErlKeyEffect.noConfusion h)).2⟩

/-! ## Claim C4: the skip-call scenario -/

/-- The raw bucket `{size: 3, skip_n_calls: 1, per_hour: 0}` of spec §8
scenario 7 (note `per_hour: 0` is falsy and sets no refill pace). -/
def skipScenarioRaw : RawConfig :=
  .mk { emptyRawFields with size := some 3, skip_n_calls := some 1, per_hour := some 0 } none

def skipScenarioCfg : NormalizedConfig := normalizeTemporals skipScenarioRaw

/-- First take with count 1 against an empty store and empty call cache. -/
def skipRun1 : StdTakeResult × List (String × CallCountEntry) × Option (ℚ × ℚ) × Option ℚ :=
  takeStd skipScenarioCfg "global:skip" 1 [] none 0

/-- Second take, continuing from the first one's cache and store. -/
def skipRun2 : StdTakeResult × List (String × CallCountEntry) × Option (ℚ × ℚ) × Option ℚ :=
  takeStd skipScenarioCfg "global:skip" 1 skipRun1.2.1 skipRun1.2.2.1 0

/-- Third take, continuing from the second one's cache and store. -/
def skipRun3 : StdTakeResult × List (String × CallCountEntry) × Option (ℚ × ℚ) × Option ℚ :=
  takeStd skipScenarioCfg "global:skip" 1 skipRun2.2.1 skipRun2.2.2.1 0

/-- First take with count 2 (the count the claim asserts) against an empty
store and empty call cache. -/
def skipRunCount2 : StdTakeResult × List (String × CallCountEntry) × Option (ℚ × ℚ) × Option ℚ :=
  takeStd skipScenarioCfg "global:skip" 2 [] none 0

/-- C4 (amended).  For `{size:3, skip_n_calls:1, per_hour:0}` with count 1
(the default), three successive takes return remaining `[2, 2, 0]`, all
conformant; the first and third reach the store (sending counts 1 and 2
respectively — the third deducts `count × (skip_n_calls + 1) = 2` tokens)
while the second is answered from the call cache.  With count 2, as the claim
states it, the first take already returns remaining 1, not 2 — see the
counterexample. -/
theorem skip_call_take_sequence :
    skipRun1.1.remaining = 2 ∧ skipRun1.1.conformant = true ∧ skipRun1.2.2.2 = some 1 ∧
    skipRun2.1.remaining = 2 ∧ skipRun2.1.conformant = true ∧ skipRun2.2.2.2 = none ∧
    skipRun3.1.remaining = 0 ∧ skipRun3.1.conformant = true ∧ skipRun3.2.2.2 = some 2 := by
  refine ⟨?_, ?_, ?_, ?_, ?_, ?_, ?_, ?_, ?_⟩ <;>
    norm_num [skipRun1, skipRun2, skipRun3, takeStd, takeScript, takeRefillContent,
      decodeStd, truncInt, alistGet, alistSet, jsOrQ, skipScenarioCfg, skipScenarioRaw,
      emptyRawFields, normalizeTemporals, applyShortcut, defaultSize, deriveTemporals,
      defaultErlPeriod, NormalizedConfig.flat, NormalizedConfig.size, List.find?]

/-- Counterexample to C4 as stated: with count 2 the very first take against
the store returns remaining `3 − 2 = 1`, so the sequence cannot be
`[2, 2, 0]`. -/
theorem skip_call_take_sequence_count2 :
    skipRunCount2.1.remaining = 1 ∧ (1 : ℚ) ≠ 2 := by
  constructor
  · norm_num [skipRunCount2, takeStd, takeScript, takeRefillContent, decodeStd, truncInt,
      alistGet, alistSet, jsOrQ, skipScenarioCfg, skipScenarioRaw, emptyRawFields,
      normalizeTemporals, applyShortcut, defaultSize, deriveTemporals, defaultErlPeriod,
      NormalizedConfig.flat, NormalizedConfig.size, List.find?]
  · norm_num

/-! ## Claim C5: validation of the `count` argument -/

/-- C5 (amended).  A present `count` that is neither `'all'` nor a true
integer raises the synchronous `_determineCount` throw — never a callback
delivery — whenever the value is *truthy*; a falsy such value (`false`,
`NaN`, `''`, `0n`, `null`) is instead treated like an absent count and
resolves to the default.  The original claim fails on the falsy values — see
the counterexample. -/
theorem count_validation_sync_throw :
    (∀ (v : JSValue) (d s : ℚ),
      v.truthy = true → v ≠ .str "all" → v.isIntegerNum = false →
      determineCount v d s = CountOutcome.countError ∧
      take_controlFlow false v d s = TakeControl.syncThrow) ∧
    (∀ (v : JSValue) (d s : ℚ),
      v.truthy = false → v.isIntegerNum = false →
      determineCount v d s = CountOutcome.ok d ∧
      take_controlFlow false v d s = TakeControl.proceeds d) := by
  constructor
  · intro v d s h1 h2 h3
    have hd : determineCount v d s = CountOutcome.countError := by
      simp [determineCount, h2, h3, h1]
    exact ⟨hd, by simp [take_controlFlow, hd]⟩
  · intro v d s h1 h3
    have h2 : v ≠ .str "all" := by
      intro he
      rw [he] at h1
      simp [JSValue.truthy] at h1
    have hd : determineCount v d s = CountOutcome.ok d := by
      simp [determineCount, h2, h3, h1]
    exact ⟨hd, by simp [take_controlFlow, hd]⟩

/-- Counterexample to C5 as stated: `count = false` is present, a boolean,
not `'all'` and not an integer, yet `_determineCount` resolves it to the
default count and `take` proceeds without any error. -/
theorem falsy_invalid_count_does_not_throw :
    determineCount (JSValue.bool false) 1 3 = CountOutcome.ok 1 ∧
    take_controlFlow false (JSValue.bool false) 1 3 = TakeControl.proceeds 1 ∧
    take_controlFlow false (JSValue.bool false) 1 3 ≠ TakeControl.syncThrow := by
  refine ⟨?_, ?_, ?_⟩ <;>
    simp [determineCount, take_controlFlow, JSValue.truthy, JSValue.isIntegerNum]

/-- Witness for C5: a record value (present, truthy, not `'all'`, not an
integer) hits the synchronous throw. -/
theorem count_validation_sync_throw_witness :
    determineCount JSValue.record 1 3 = CountOutcome.countError ∧
    take_controlFlow false JSValue.record 1 3 = TakeControl.syncThrow :=
  count_validation_sync_throw.1 JSValue.record 1 3 rfl
    (by simp) rfl

/-! ## Claim C6: precedence of the key resolver -/

/-- C6.  `bucketKeyConfig` selects the effective descriptor in exactly the
order: caller-supplied `configOverride` (normalized, cache untouched) →
literal override for the exact key → cached regex override → first matching
regex override in definition order (`List.find?`), which is inserted into the
cache → the type's own base descriptor (cache untouched in every case but the
regex-scan hit). -/
theorem bucketKeyConfig_precedence :
    (∀ (T : TypeDescriptor) (key : String) (o : RawConfig),
      bucketKeyConfig T key (some o) = (normalizeTemporals o, T)) ∧
    (∀ (T : TypeDescriptor) (key : String) (c : NormalizedConfig),
      alistGet T.overrides key = some c →
      bucketKeyConfig T key none = (c, T)) ∧
    (∀ (T : TypeDescriptor) (key : String) (ro : RegexOverride),
      alistGet T.overrides key = none →
      alistGet T.overridesCache key = some ro →
      bucketKeyConfig T key none = (ro.cfg, T)) ∧
    (∀ (T : TypeDescriptor) (key : String) (ro : RegexOverride),
      alistGet T.overrides key = none →
      alistGet T.overridesCache key = none →
      T.overridesMatch.find? (fun o => o.pattern key) = some ro →
      bucketKeyConfig T key none =
        (ro.cfg, { T with overridesCache := alistSet T.overridesCache key ro })) ∧
    (∀ (T : TypeDescriptor) (key : String),
      alistGet T.overrides key = none →
      alistGet T.overridesCache key = none →
      T.overridesMatch.find? (fun o => o.pattern key) = none →
      bucketKeyConfig T key none = (T.base, T)) := by
  refine ⟨?_, ?_, ?_, ?_, ?_⟩
  · intro T key o
    simp [bucketKeyConfig]
  · intro T key c h1
    simp [bucketKeyConfig, h1]
  · intro T key ro h1 h2
    simp [bucketKeyConfig, h1, h2]
  · intro T key ro h1 h2 h3
    simp [bucketKeyConfig, h1, h2, h3]
  · intro T key h1 h2 h3
    simp [bucketKeyConfig, h1, h2, h3]

/-- A sample compiled regex override whose pattern matches every key. -/
def sampleRegexOverride : RegexOverride :=
  { cfg := skipScenarioCfg, pattern := fun _ => true }

/-- A sample compiled type with no literal overrides, one regex override and
an empty cache. -/
def sampleType : TypeDescriptor :=
  { base := erlScenarioCfg, overrides := [], overridesMatch := [sampleRegexOverride],
    overridesCache := [] }

/-- Witness for C6: the regex-scan case on the sample type inserts the match
into the cache and returns its descriptor. -/
theorem bucketKeyConfig_precedence_witness :
    bucketKeyConfig sampleType "k" none =
      (sampleRegexOverride.cfg,
        { sampleType with
            overridesCache := alistSet sampleType.overridesCache "k" sampleRegexOverride }) :=
  bucketKeyConfig_precedence.2.2.2.1 sampleType "k" sampleRegexOverride rfl rfl
    (by simp [sampleType, sampleRegexOverride, List.find?])

/-! ## Claim C8: the size default in the normalizer -/

/-- C8 (amended).  When the input leaves `size` unset, the normalized `size`
equals the normalized `per_interval` (which a truthy interval shortcut may
have set); when additionally no rate is set — `per_interval` absent and every
shortcut absent or zero — `size` remains unset (`undefined`), not 0.  The
original claim's "0" fails — see the counterexample. -/
theorem normalize_size_defaults_to_per_interval :
    (∀ raw : RawConfig, raw.flat.size = none →
      (normalizeTemporals raw).size = (normalizeTemporals raw).per_interval) ∧
    (∀ (f : RawFields) (e : Option RawConfig), f.size = none → f.per_interval = none →
      applyShortcut (applyShortcut (applyShortcut (applyShortcut (f.interval, f.per_interval)
        f.per_second 1000) f.per_minute 60000) f.per_hour 3600000) f.per_day 86400000
          = (f.interval, none) →
      (normalizeTemporals (.mk f e)).size = none) := by
  constructor
  · intro raw h
    cases raw with
    | mk f e =>
      cases e <;>
        simp_all [normalizeTemporals, defaultSize, RawConfig.flat, NormalizedConfig.size,
          NormalizedConfig.per_interval, NormalizedConfig.flat]
  · intro f e h1 h2 h3
    cases e <;>
      simp_all [normalizeTemporals, defaultSize, RawConfig.flat, NormalizedConfig.size,
        NormalizedConfig.flat]

/-- Counterexample to C8 as stated: normalizing the empty definition leaves
`size` unset (`undefined`), which is not 0. -/
theorem normalize_size_not_zero_when_nothing_set :
    (normalizeTemporals (.mk emptyRawFields none)).size = none ∧
    (normalizeTemporals (.mk emptyRawFields none)).size ≠ some 0 := by
  constructor <;>
    simp [normalizeTemporals, emptyRawFields, applyShortcut, defaultSize, deriveTemporals,
      defaultErlPeriod, NormalizedConfig.size, NormalizedConfig.flat]

/-- Witness for C8: a definition with only `per_minute: 5` gets
`size = per_interval = some 5`. -/
theorem normalize_size_defaults_to_per_interval_witness :
    (normalizeTemporals (.mk { emptyRawFields with per_minute := some 5 } none)).size =
      (normalizeTemporals (.mk { emptyRawFields with per_minute := some 5 } none)).per_interval :=
  normalize_size_defaults_to_per_interval.1
    (.mk { emptyRawFields with per_minute := some 5 } none) rfl

/-! ## Claim C9: the two versions of the elevated script -/

/-- Arguments exhibiting the divergence of the two script versions: a bucket
of size 2 refilling one token per second, with elevated size 10. -/
def divergenceArgs : ElevArgs :=
  { tokens_per_ms := 1/1000
    bucket_size := 2
    tokens_to_take := 2
    ttl := 60
    drip_interval := 1000
    erl_tokens_per_ms := 1/1000
    erl_bucket_size := 10
    erl_activation_period_seconds := 15 }

/-- C9.  On first activation the adopted script carries the used tokens
forward — pre-take elevated content `erl_size − (size − refilled content)` —
while the earlier version refills to `erl_size − size` regardless of the
refilled content; consequently, from the reachable state `(d = 0, r = 0)`
(left by a first take of the whole bucket) a second take at `t = 1000 ms`
(refilled standard content 1) returns remaining 7 under the adopted script
and 6 under the earlier one. -/
theorem elevated_script_versions_diverge :
    (∀ (a : ElevArgs) (current : Option (ℚ × ℚ)) (now : ℚ),
      0 ≤ a.tokens_to_take →
      calculateNewBucketContent current a.tokens_per_ms a.bucket_size now < a.tokens_to_take →
      a.tokens_to_take ≤ a.erl_bucket_size -
        (a.bucket_size - calculateNewBucketContent current a.tokens_per_ms a.bucket_size now) →
      (takeElevatedScript a false current now).remaining =
        a.erl_bucket_size -
          (a.bucket_size - calculateNewBucketContent current a.tokens_per_ms a.bucket_size now) -
          a.tokens_to_take) ∧
    (∀ (a : ElevArgs) (current : Option (ℚ × ℚ)) (now : ℚ),
      0 ≤ a.tokens_to_take → 0 ≤ a.bucket_size →
      calculateNewBucketContent current a.tokens_per_ms a.bucket_size now < a.tokens_to_take →
      a.tokens_to_take ≤ a.erl_bucket_size - a.bucket_size →
      (takeElevatedOldScript a false current now).remaining =
        a.erl_bucket_size - a.bucket_size - a.tokens_to_take) ∧
    ((takeElevatedScript divergenceArgs false none 0).newState = (0, 0) ∧
     (takeElevatedOldScript divergenceArgs false none 0).newState = (0, 0) ∧
     (takeElevatedScript divergenceArgs false (some (0, 0)) 1000).remaining = 7 ∧
     (takeElevatedOldScript divergenceArgs false (some (0, 0)) 1000).remaining = 6 ∧
     (7 : ℚ) ≠ 6) := by
  refine ⟨?_, ?_, ?_, ?_, ?_, ?_, ?_⟩
  · intro a current now h0 hlt hge
    exact (takeElevatedScript_activation a current now h0 hlt hge).2.2
  · intro a current now h0 hbs hlt hge
    have hside : a.erl_bucket_size - a.bucket_size - a.tokens_to_take ≤ a.erl_bucket_size := by
      linarith
    simp only [takeElevatedOldScript, Bool.false_eq_true, if_false, eq_self_iff_true,
      and_true, if_neg (not_le.mpr hlt), if_pos hge]
    rw [min_eq_left hside]
  · norm_num [takeElevatedScript, calculateNewBucketContent, divergenceArgs]
  · norm_num [takeElevatedOldScript, calculateNewBucketContent, divergenceArgs]
  · norm_num [takeElevatedScript, calculateNewBucketContent, divergenceArgs]
  · norm_num [takeElevatedOldScript, calculateNewBucketContent, divergenceArgs]
  · norm_num


/-- Witness for C9: the two general branch characterizations evaluated at the
divergence input, where the refilled standard content is 1. -/
theorem elevated_script_versions_diverge_witness :
    (takeElevatedScript divergenceArgs false (some (0, 0)) 1000).remaining =
      divergenceArgs.erl_bucket_size -
        (divergenceArgs.bucket_size -
          calculateNewBucketContent (some (0, 0)) divergenceArgs.tokens_per_ms
            divergenceArgs.bucket_size 1000) -
        divergenceArgs.tokens_to_take ∧
    (takeElevatedOldScript divergenceArgs false (some (0, 0)) 1000).remaining =
      divergenceArgs.erl_bucket_size - divergenceArgs.bucket_size -
        divergenceArgs.tokens_to_take :=
  ⟨elevated_script_versions_diverge.1 divergenceArgs (some (0, 0)) 1000
      (by norm_num [divergenceArgs])
      (by norm_num [divergenceArgs, calculateNewBucketContent])
      (by norm_num [divergenceArgs, calculateNewBucketContent]),
    elevated_script_versions_diverge.2.1 divergenceArgs (some (0, 0)) 1000
      (by norm_num [divergenceArgs])
      (by norm_num [divergenceArgs])
      (by norm_num [divergenceArgs, calculateNewBucketContent])
      (by norm_num [divergenceArgs, calculateNewBucketContent])⟩

end LimitdRedis
